import Mathlib

/-!
Verification of the pacquet package manager core against its specification.

The Rust source is shallowly embedded: pure functions become Lean functions,
filesystem-touching code becomes explicit state passing over a finite map of
paths, and fallible code returns `Option`/`Except`.  Library functionality
external to the repository (the SHA-512 routine of the `ssri` crate) is
abstracted as a function parameter.
-/

namespace Pacquet

/-! ## Content-addressed store: `crates/cafs/src/lib.rs` -/

/-- Embeds `enum FileType` of `cafs/src/lib.rs`. -/
inductive FileType
  | Exec
  | NonExec
  | Index
deriving DecidableEq

/-- The `extension` string chosen by the `match` inside `content_path_from_hex`. -/
def FileType.extension : FileType → String
  | .Exec => "-exec"
  | .NonExec => ""
  | .Index => "-index.json"

/-- Embeds `content_path_from_hex` of `cafs/src/lib.rs`: pushes `hex[0..2]` as the
first path component and joins `format!("{}{}", &hex[2..], extension)`.
Paths are modelled as `/`-separated strings. -/
def content_path_from_hex (file_type : FileType) (hex : String) : String :=
  hex.take 2 ++ "/" ++ (hex.drop 2 ++ file_type.extension)

theorem string_append_empty (s : String) : s ++ "" = s := by
  cases s
  simp [String.append]

/-- C1: the CAS path is a pure function of the hex digest and the file type:
`hex[0..2] / hex[2..]` with suffix `""` for NonExec, `"-exec"` for Exec and
`"-index.json"` for Index; in particular at the concrete 40-character digest of
the specification. -/
theorem c1_cas_path_derivation :
    (∀ hex : String, 2 ≤ hex.length →
      content_path_from_hex .NonExec hex = hex.take 2 ++ "/" ++ hex.drop 2 ∧
      content_path_from_hex .Exec hex = hex.take 2 ++ "/" ++ hex.drop 2 ++ "-exec" ∧
      content_path_from_hex .Index hex = hex.take 2 ++ "/" ++ hex.drop 2 ++ "-index.json") ∧
    content_path_from_hex .NonExec "1234567890abcdef1234567890abcdef12345678"
      = "12/34567890abcdef1234567890abcdef12345678" ∧
    content_path_from_hex .Exec "1234567890abcdef1234567890abcdef12345678"
      = "12/34567890abcdef1234567890abcdef12345678-exec" ∧
    content_path_from_hex .Index "1234567890abcdef1234567890abcdef12345678"
      = "12/34567890abcdef1234567890abcdef12345678-index.json" := by
  refine ⟨fun hex _ => ⟨?_, ?_, ?_⟩, by decide, by decide, by decide⟩
  · simp [content_path_from_hex, FileType.extension, string_append_empty]
  · simp [content_path_from_hex, FileType.extension, String.append_assoc]
  · simp [content_path_from_hex, FileType.extension, String.append_assoc]

/-- Witness for `c1_cas_path_derivation`: instantiates the universally
quantified part at the concrete digest of the specification. -/
theorem c1_cas_path_derivation_witness :
    content_path_from_hex .NonExec "1234567890abcdef1234567890abcdef12345678"
      = "12/34567890abcdef1234567890abcdef12345678" ∧
    content_path_from_hex .Exec "1234567890abcdef1234567890abcdef12345678"
      = "12/34567890abcdef1234567890abcdef12345678" ++ "-exec" :=
  ⟨(c1_cas_path_derivation.1 "1234567890abcdef1234567890abcdef12345678" (by decide)).1.trans
      (by decide),
   (c1_cas_path_derivation.1 "1234567890abcdef1234567890abcdef12345678" (by decide)).2.1.trans
      (by decide)⟩

/-! ## CAS write: `write_sync` of `crates/cafs/src/lib.rs`

The filesystem is a finite map from path strings to byte lists; `write_sync`
additionally returns the trace of filesystem operations it performed, so that
claims about *how* the file is created (temporary sibling + rename versus a
direct write) can be stated. -/

/-- Filesystem state: an association list from paths to file contents. -/
structure Fs where
  files : List (String × List Nat)
deriving DecidableEq

/-- Embeds Rust `Path::exists` on the modelled filesystem. -/
def Fs.existsPath (fs : Fs) (p : String) : Bool :=
  fs.files.any (fun f => f.1 = p)

/-- Embeds Rust `fs::write`: store `c` at path `p`. -/
def Fs.setFile (fs : Fs) (p : String) (c : List Nat) : Fs :=
  ⟨(p, c) :: fs.files.filter (fun f => f.1 ≠ p)⟩

/-- Embeds Rust `Path::parent` on `/`-separated path strings: everything
before the last `/`. -/
def parentDir (p : String) : String :=
  ⟨(((p.toList.reverse.dropWhile (fun c => c ≠ '/')).drop 1).reverse)⟩

/-- The filesystem operations `write_sync` may perform. -/
inductive FsOp
  | createDirAll (path : String)
  | writeFile (path : String) (content : List Nat)
  | rename (src dst : String)
deriving DecidableEq

/-- Embeds `write_sync` of `cafs/src/lib.rs`.  The SHA-512 hex digest routine
(the external `ssri` crate) is abstracted as the parameter `sha512hex`.  The
source computes `file_path = store_dir.join(content_path_from_hex(NonExec, hex))`;
if it exists it writes nothing, otherwise it runs `fs::create_dir_all(parent)`
followed by `fs::write(&file_path, buffer)` — a direct write, no temporary.
Returns the new filesystem, the operation trace and the returned path. -/
def write_sync (sha512hex : List Nat → String) (store_dir : String) (buffer : List Nat)
    (fs : Fs) : Fs × List FsOp × String :=
  let hex := sha512hex buffer
  let file_path := store_dir ++ "/" ++ content_path_from_hex .NonExec hex
  if fs.existsPath file_path then
    (fs, [], file_path)
  else
    (fs.setFile file_path buffer,
     [FsOp.createDirAll (parentDir file_path), FsOp.writeFile file_path buffer],
     file_path)

/-- Does this operation rename something onto `dst`? -/
def opIsRenameTo (dst : String) : FsOp → Bool
  | .rename _ d => d = dst
  | _ => false

/-- Does this operation write directly to `p`? -/
def opWritesTo (p : String) : FsOp → Bool
  | .writeFile q _ => q = p
  | _ => false

/-- The trace creates `finalPath` atomically in the claimed sense: some rename
lands on `finalPath` and no operation writes to `finalPath` directly. -/
def atomicTempRename (trace : List FsOp) (finalPath : String) : Bool :=
  trace.any (opIsRenameTo finalPath) && !(trace.any (opWritesTo finalPath))

theorem existsPath_setFile (fs : Fs) (p : String) (c : List Nat) :
    (fs.setFile p c).existsPath p = true := by
  simp [Fs.existsPath, Fs.setFile]

/-- C2 counterexample: on a fresh store, `write_sync` performs a direct
`fs::write` to the final CAS path and no rename — the trace is exactly
`create_dir_all` of the parent followed by a write to the final path, so the
temporary-sibling-plus-rename part of the claim is false. -/
theorem c2_counterexample :
    atomicTempRename (write_sync (fun _ => "abcdef") "store" [1] ⟨[]⟩).2.1
        "store/ab/cdef" = false ∧
    (write_sync (fun _ => "abcdef") "store" [1] ⟨[]⟩).2.1
      = [FsOp.createDirAll "store/ab", FsOp.writeFile "store/ab/cdef" [1]] := by
  constructor
  · decide
  · decide

/-- C2 amended: `write_sync` derives the CAS path from the digest of the
buffer; when the path already exists it performs no operation and returns the
existing path; when it does not exist it creates the parent directory and
writes the buffer *directly* to the final path (no temporary file, no rename);
putting the same content twice yields the same path with no further writes. -/
theorem c2_put_behaviour (sha : List Nat → String) (store_dir : String) (buffer : List Nat)
    (fs : Fs) (path : String)
    (hpath : path = store_dir ++ "/" ++ content_path_from_hex .NonExec (sha buffer)) :
    (write_sync sha store_dir buffer fs).2.2 = path ∧
    (fs.existsPath path = true → write_sync sha store_dir buffer fs = (fs, [], path)) ∧
    (fs.existsPath path = false →
      write_sync sha store_dir buffer fs
        = (fs.setFile path buffer,
           [FsOp.createDirAll (parentDir path), FsOp.writeFile path buffer], path)) ∧
    write_sync sha store_dir buffer (write_sync sha store_dir buffer fs).1
      = ((write_sync sha store_dir buffer fs).1, [], path) := by
  subst hpath
  by_cases h : fs.existsPath (store_dir ++ "/" ++ content_path_from_hex .NonExec (sha buffer))
  · simp [write_sync, h]
  · simp [write_sync, h, existsPath_setFile]

/-- Witness for `c2_put_behaviour` at a concrete digest function, store
directory, buffer and empty filesystem. -/
theorem c2_put_behaviour_witness :
    Fs.existsPath ⟨[]⟩ "store/ab/cdef" = false ∧
    (write_sync (fun _ => "abcdef") "store" [1] ⟨[]⟩).1
      = Fs.setFile ⟨[]⟩ "store/ab/cdef" [1] :=
  ⟨by decide,
   congrArg Prod.fst ((c2_put_behaviour (fun _ => "abcdef") "store" [1] ⟨[]⟩ "store/ab/cdef"
      (by decide)).2.2.1 (by decide))⟩

/-! ## Lockfile resolutions: `crates/lockfile/src/resolution.rs` -/

/-- Embeds `struct TarballResolution`: `{ tarball: String, integrity: Option<String> }`,
with `integrity` skipped during serialization when `None`. -/
structure TarballResolution where
  tarball : String
  integrity : Option String
deriving DecidableEq

/-- Embeds `struct RegistryResolution`: `{ integrity: String }`. -/
structure RegistryResolution where
  integrity : String
deriving DecidableEq

/-- Embeds `struct DirectoryResolution`: `{ directory: String }`. -/
structure DirectoryResolution where
  directory : String
deriving DecidableEq

/-- Embeds `struct GitResolution`: `{ repo: String, commit: String }`. -/
structure GitResolution where
  repo : String
  commit : String
deriving DecidableEq

/-- Embeds `enum LockfileResolution` of `lockfile/src/resolution.rs`. -/
inductive LockfileResolution
  | Tarball : TarballResolution → LockfileResolution
  | Registry : RegistryResolution → LockfileResolution
  | Directory : DirectoryResolution → LockfileResolution
  | Git : GitResolution → LockfileResolution
deriving DecidableEq

/-- Embeds `LockfileResolution::integrity`. -/
def LockfileResolution.integrity : LockfileResolution → Option String
  | .Tarball resolution => resolution.integrity
  | .Registry resolution => some resolution.integrity
  | .Directory _ | .Git _ => none

/-- A serialized resolution is modelled as the association list of its string
fields, in serde field order.  YAML scalar details are irrelevant here: every
field of every resolution struct is a string. -/
def serializeResolution : LockfileResolution → List (String × String)
  | .Tarball ⟨tarball, none⟩ => [("tarball", tarball)]
  | .Tarball ⟨tarball, some integrity⟩ => [("tarball", tarball), ("integrity", integrity)]
  | .Registry ⟨integrity⟩ => [("integrity", integrity)]
  | .Directory ⟨directory⟩ => [("type", "directory"), ("directory", directory)]
  | .Git ⟨repo, commit⟩ => [("type", "git"), ("repo", repo), ("commit", commit)]

/-- Field lookup in a serialized mapping. -/
def lookupField (fields : List (String × String)) (key : String) : Option String :=
  (fields.find? (fun f => f.1 = key)).map (fun f => f.2)

/-- `#[serde(deny_unknown_fields)]`: every present key must be a declared field. -/
def keysAllowed (fields : List (String × String)) (allowed : List String) : Bool :=
  fields.all (fun f => allowed.contains f.1)

/-- Deserializing `TarballResolution`: requires `tarball`, optional `integrity`,
unknown fields denied. -/
def parseTarballResolution (fields : List (String × String)) : Option TarballResolution :=
  if keysAllowed fields ["tarball", "integrity"] then
    (lookupField fields "tarball").map
      (fun tarball => ⟨tarball, lookupField fields "integrity"⟩)
  else none

/-- Deserializing `RegistryResolution`: requires `integrity`, unknown fields denied. -/
def parseRegistryResolution (fields : List (String × String)) : Option RegistryResolution :=
  if keysAllowed fields ["integrity"] then
    (lookupField fields "integrity").map (fun integrity => ⟨integrity⟩)
  else none

/-- Deserializing the internally tagged `TaggedResolution` helper enum:
dispatch on the kebab-case `type` field, unknown fields denied. -/
def parseTaggedResolution (fields : List (String × String)) : Option LockfileResolution :=
  match lookupField fields "type" with
  | some "directory" =>
    if keysAllowed fields ["type", "directory"] then
      (lookupField fields "directory").map (fun directory => .Directory ⟨directory⟩)
    else none
  | some "git" =>
    if keysAllowed fields ["type", "repo", "commit"] then
      match lookupField fields "repo", lookupField fields "commit" with
      | some repo, some commit => some (.Git ⟨repo, commit⟩)
      | _, _ => none
    else none
  | _ => none

/-- Deserializing the `#[serde(untagged)]` helper enum `ResolutionSerde`:
variants are tried in declaration order — `Tarball`, then `Registry`, then the
tagged `Directory`/`Git` pair — and the first success wins. -/
def parseResolution (fields : List (String × String)) : Option LockfileResolution :=
  match parseTarballResolution fields with
  | some resolution => some (.Tarball resolution)
  | none =>
    match parseRegistryResolution fields with
    | some resolution => some (.Registry resolution)
    | none => parseTaggedResolution fields

/-- C3: deserializing the serialization of any lockfile resolution yields the
original value, for all five shapes — Tarball with and without integrity,
Registry, Directory and Git; Tarball and Registry serialize untagged by their
fields, Directory and Git are tagged by a kebab-case `type` field. -/
theorem c3_resolution_roundtrip (x : LockfileResolution) :
    parseResolution (serializeResolution x) = some x := by
  match x with
  | .Tarball ⟨tarball, none⟩ => rfl
  | .Tarball ⟨tarball, some integrity⟩ => rfl
  | .Registry ⟨integrity⟩ => rfl
  | .Directory ⟨directory⟩ => rfl
  | .Git ⟨repo, commit⟩ => rfl

/-! ## Package identity strings: `crates/lockfile/src/pkg_name_ver_peer.rs`

`PkgNameVerPeer = PkgNameSuffix<PkgVerPeer>` with syntax
`{name}@{version}({peers})`.  The `FromStr` implementation of `PkgNameSuffix`
lives in a file of this repository that is not under `src/` (only the type
alias and its tests are), so the parser is modelled from the specification. -/

/-- Modelled from the spec: the `FromStr` parser of `PkgNameSuffix`
(`pkg_name_suffix.rs`, not under `src/`).  The specification says the input
`name@suffix` is split at the `@` that separates the possibly scoped name from
the version-with-peer suffix; for a scoped name the leading `@` belongs to the
name, so the separator is the first `@` after the first character.  Returns
`(name, suffix)`. -/
def parsePkgNameVerPeer (s : String) : Option (String × String) :=
  match s.toList with
  | [] => none
  | c :: rest =>
    match rest.findIdx? (fun ch => ch = '@') with
    | none => none
    | some i => some (⟨c :: rest.take i⟩, ⟨rest.drop (i + 1)⟩)

/-- C4: a package identity string splits at the `@` separating the (possibly
scoped) name from the version-with-peer suffix — at the two concrete inputs of
the specification, one with a peer suffix and one (scoped) without. -/
theorem c4_identity_parse :
    parsePkgNameVerPeer
        "react-json-view@1.21.3(@types/react@17.0.49)(react-dom@17.0.2)(react@17.0.2)"
      = some ("react-json-view",
          "1.21.3(@types/react@17.0.49)(react-dom@17.0.2)(react@17.0.2)") ∧
    parsePkgNameVerPeer "@algolia/autocomplete-core@1.9.3"
      = some ("@algolia/autocomplete-core", "1.9.3") ∧
    parsePkgNameVerPeer "react-json-view@1.21.3"
      = some ("react-json-view", "1.21.3") := by
  refine ⟨by decide, by decide, by decide⟩

/-! ## Installer: `install_single_package_to_virtual_store` of `crates/cli/src/package.rs`

The resolution phase of the installer is embedded as a function from the
configured registry, the dependency path and the lockfile resolution to either
an error or the `(tarball_url, integrity)` pair; the whole install step
additionally records the list of effectful steps (download, virtual-dir
creation) performed before any failure.  The helper types `PkgName` /
`PkgVerPeer` / `DependencyPath` live in repository files not under `src/`, so
their accessors are modelled from the specification. -/

/-- Modelled from the spec: a possibly scoped package name (`@scope/name`);
`bare` is the name without its scope. -/
structure PkgName where
  scope : Option String
  bare : String
deriving DecidableEq

/-- Modelled from the spec: the display form of a package name, `@scope/bare`
when scoped, `bare` otherwise.  This is the `{name}` of the URL format string. -/
def PkgName.display (n : PkgName) : String :=
  match n.scope with
  | some s => "@" ++ s ++ "/" ++ n.bare
  | none => n.bare

/-- Embeds `PkgNameSuffix<PkgVerPeer>`: a name plus its version-with-peer
suffix. -/
structure PkgNameVerPeer where
  name : PkgName
  suffix : String
deriving DecidableEq

/-- Modelled from the spec: `PkgVerPeer::version()` — the version is the part
of the suffix that precedes the parenthesised peer list. -/
def verPeerVersion (suffix : String) : String :=
  ⟨suffix.toList.takeWhile (fun c => c ≠ '(')⟩

/-- Embeds `DependencyPath` of the lockfile crate: an optional custom registry
plus the package specifier. -/
structure DependencyPath where
  customRegistry : Option String
  packageSpecifier : PkgNameVerPeer
deriving DecidableEq

/-- Modelled from the spec: the canonical identity string of a dependency
path, `name@suffix`; used in the installer only inside failure messages. -/
def DependencyPath.display (dp : DependencyPath) : String :=
  dp.packageSpecifier.name.display ++ "@" ++ dp.packageSpecifier.suffix

/-- Embeds Rust `str::strip_suffix('/')` composed with `unwrap_or`: drop one
trailing slash if present. -/
def stripSuffixSlash (s : String) : String :=
  match s.toList.getLast? with
  | some '/' => ⟨s.toList.dropLast⟩
  | _ => s

/-- Debug rendering of an optional string, as in Rust `{:?}`. -/
def optionDebug : Option String → String
  | none => "None"
  | some s => "Some(\"" ++ s ++ "\")"

/-- Debug rendering of a resolution, mirroring Rust `{resolution:?}` (struct
braces rendered as parentheses). -/
def resolutionDebug : LockfileResolution → String
  | .Tarball t =>
    "Tarball(TarballResolution(tarball: \"" ++ t.tarball ++ "\", integrity: "
      ++ optionDebug t.integrity ++ "))"
  | .Registry r => "Registry(RegistryResolution(integrity: \"" ++ r.integrity ++ "\"))"
  | .Directory d => "Directory(DirectoryResolution(directory: \"" ++ d.directory ++ "\"))"
  | .Git g =>
    "Git(GitResolution(repo: \"" ++ g.repo ++ "\", commit: \"" ++ g.commit ++ "\"))"

/-- Error outcomes of the installer.  The source only ever produces `.panic`
(Rust panics); the structured constructors `unsupportedResolution` and
`missingIntegrity` exist so that the specification claims naming them can be
stated — no embedded code path constructs them. -/
inductive InstallError
  | panic (msg : String)
  | unsupportedResolution (kind : String)
  | missingIntegrity (identity : String)
deriving DecidableEq

/-- Is this error a panic (as opposed to a structured error)? -/
def InstallError.isPanic : InstallError → Bool
  | .panic _ => true
  | _ => false

/-- Is this optional error a panic? -/
def errIsPanic : Option InstallError → Bool
  | some e => e.isPanic
  | none => false

/-- The effectful steps an install of one node performs. -/
inductive InstallStep
  | download (url : String) (integrity : String)
  | createVirtualDir (dependencyPath : String)
deriving DecidableEq

/-- Embeds the `match resolution` block of
`install_single_package_to_virtual_store` (`cli/src/package.rs`): Tarball with
integrity passes through; Tarball without integrity panics; Registry
synthesizes the URL `{registry}` + `/` + `{name}` + `/` + `-` + `/` +
`{bare_name}-{version}.tgz` after stripping a trailing slash from the (custom
or configured) registry; Directory and Git panic. -/
def resolveTarballUrlAndIntegrity (configRegistry : String) (dp : DependencyPath)
    (resolution : LockfileResolution) : Except InstallError (String × String) :=
  match resolution with
  | .Tarball t =>
    match t.integrity with
    | some integrity => .ok (t.tarball, integrity)
    | none =>
      .error (.panic ("Current implementation requires integrity, but "
        ++ dp.display ++ " doesn\x27t have it"))
  | .Registry r =>
    let registry := stripSuffixSlash (dp.customRegistry.getD configRegistry)
    let name := dp.packageSpecifier.name
    let version := verPeerVersion dp.packageSpecifier.suffix
    .ok (registry ++ "/" ++ name.display ++ "/-/" ++ name.bare ++ "-" ++ version ++ ".tgz",
      r.integrity)
  | .Directory _ | .Git _ =>
    .error (.panic ("Only TarballResolution and RegistryResolution is supported at the moment, but "
      ++ dp.display ++ " requires " ++ resolutionDebug resolution))

/-- Embeds `install_single_package_to_virtual_store`: resolve the URL and
integrity, then download the tarball to the store and create the virtual
directory from the snapshot.  Returns the effectful steps performed and the
error, if any; a failing resolution performs no step. -/
def install_single_package_to_virtual_store (configRegistry : String) (dp : DependencyPath)
    (resolution : LockfileResolution) : List InstallStep × Option InstallError :=
  match resolveTarballUrlAndIntegrity configRegistry dp resolution with
  | .error e => ([], some e)
  | .ok (tarball_url, integrity) =>
    ([.download tarball_url integrity, .createVirtualDir dp.display], none)

/-- Does the resolution match the `Directory(_) | Git(_)` arm? -/
def LockfileResolution.isGitOrDir : LockfileResolution → Bool
  | .Git _ | .Directory _ => true
  | _ => false

/-- C5: for every lockfile node with a Registry resolution the installer
downloads from the URL `{registry}` + `/` + `{name}` + `/` + `-` + `/` +
`{bare_name}-{version}.tgz`, where the registry (custom one if present,
configured one otherwise) has its trailing slash stripped, `name` is the full
possibly-scoped name, `bare_name` drops the scope, and `version` is extracted
from the version-with-peer suffix. -/
theorem c5_registry_tarball_url (configRegistry : String) (dp : DependencyPath)
    (r : RegistryResolution) :
    install_single_package_to_virtual_store configRegistry dp (.Registry r)
      = ([.download
            (stripSuffixSlash (dp.customRegistry.getD configRegistry) ++ "/"
              ++ dp.packageSpecifier.name.display ++ "/-/"
              ++ dp.packageSpecifier.name.bare ++ "-"
              ++ verPeerVersion dp.packageSpecifier.suffix ++ ".tgz")
            r.integrity,
          .createVirtualDir dp.display], none) := rfl

/-- C6 counterexample: at a concrete Git node the installer does not produce
the structured error `UnsupportedResolution(kind: "git")` — it produces a
panic — although indeed no effectful step runs. -/
theorem c6_counterexample :
    (install_single_package_to_virtual_store "https://registry.npmjs.com/"
        ⟨none, ⟨⟨none, "foo"⟩, "1.0.0"⟩⟩
        (.Git ⟨"https://example.com/repo.git", "deadbeef"⟩)).2
      ≠ some (.unsupportedResolution "git") ∧
    errIsPanic (install_single_package_to_virtual_store "https://registry.npmjs.com/"
        ⟨none, ⟨⟨none, "foo"⟩, "1.0.0"⟩⟩
        (.Git ⟨"https://example.com/repo.git", "deadbeef"⟩)).2 = true ∧
    (install_single_package_to_virtual_store "https://registry.npmjs.com/"
        ⟨none, ⟨⟨none, "foo"⟩, "1.0.0"⟩⟩
        (.Git ⟨"https://example.com/repo.git", "deadbeef"⟩)).1 = [] := by
  refine ⟨by decide, by decide, by decide⟩

/-- C6 amended: installing a node whose resolution is Git or Directory is
fatal — the installer aborts with a panic whose message names the dependency
path and the resolution — and no effectful step (no download, no write) runs
before the failure; it does not return a structured `UnsupportedResolution`
error. -/
theorem c6_unsupported_resolution_fatal (configRegistry : String) (dp : DependencyPath)
    (res : LockfileResolution) (h : res.isGitOrDir = true) :
    (install_single_package_to_virtual_store configRegistry dp res).1 = [] ∧
    (install_single_package_to_virtual_store configRegistry dp res).2
      = some (.panic ("Only TarballResolution and RegistryResolution is supported at the moment, but "
          ++ dp.display ++ " requires " ++ resolutionDebug res)) := by
  match res with
  | .Git g => exact ⟨rfl, rfl⟩
  | .Directory d => exact ⟨rfl, rfl⟩
  | .Tarball t => simp [LockfileResolution.isGitOrDir] at h
  | .Registry r => simp [LockfileResolution.isGitOrDir] at h

/-- Witness for `c6_unsupported_resolution_fatal` at a concrete Git node. -/
theorem c6_unsupported_resolution_fatal_witness :
    LockfileResolution.isGitOrDir (.Git ⟨"https://example.com/repo.git", "deadbeef"⟩) = true ∧
    (install_single_package_to_virtual_store "https://registry.npmjs.com/"
        ⟨none, ⟨⟨none, "foo"⟩, "1.0.0"⟩⟩
        (.Git ⟨"https://example.com/repo.git", "deadbeef"⟩)).1 = [] :=
  ⟨by decide,
   (c6_unsupported_resolution_fatal "https://registry.npmjs.com/"
      ⟨none, ⟨⟨none, "foo"⟩, "1.0.0"⟩⟩
      (.Git ⟨"https://example.com/repo.git", "deadbeef"⟩) (by decide)).1⟩

/-- C7 counterexample: at a concrete Tarball node without integrity the
installer does not produce the structured error `MissingIntegrity(identity)` —
it produces a panic — although indeed nothing is fetched or written. -/
theorem c7_counterexample :
    (install_single_package_to_virtual_store "https://registry.npmjs.com/"
        ⟨none, ⟨⟨none, "foo"⟩, "1.0.0"⟩⟩ (.Tarball ⟨"file:foo-1.0.0.tgz", none⟩)).2
      ≠ some (.missingIntegrity "foo@1.0.0") ∧
    errIsPanic (install_single_package_to_virtual_store "https://registry.npmjs.com/"
        ⟨none, ⟨⟨none, "foo"⟩, "1.0.0"⟩⟩ (.Tarball ⟨"file:foo-1.0.0.tgz", none⟩)).2 = true ∧
    (install_single_package_to_virtual_store "https://registry.npmjs.com/"
        ⟨none, ⟨⟨none, "foo"⟩, "1.0.0"⟩⟩ (.Tarball ⟨"file:foo-1.0.0.tgz", none⟩)).1 = [] := by
  refine ⟨by decide, by decide, by decide⟩

/-- C7 amended: installing a Tarball node whose integrity field is absent is
fatal — the installer aborts with a panic whose message identifies the
dependency path — and it performs no fetch and no write for that node; it does
not return a structured `MissingIntegrity` error. -/
theorem c7_missing_integrity_fatal (configRegistry : String) (dp : DependencyPath)
    (t : TarballResolution) (h : t.integrity = none) :
    install_single_package_to_virtual_store configRegistry dp (.Tarball t)
      = ([], some (.panic ("Current implementation requires integrity, but "
          ++ dp.display ++ " doesn\x27t have it"))) := by
  match t, h with
  | ⟨tarball, none⟩, _ => rfl

/-- Witness for `c7_missing_integrity_fatal` at a concrete node. -/
theorem c7_missing_integrity_fatal_witness :
    (TarballResolution.mk "file:foo-1.0.0.tgz" none).integrity = none ∧
    install_single_package_to_virtual_store "https://registry.npmjs.com/"
        ⟨none, ⟨⟨none, "foo"⟩, "1.0.0"⟩⟩ (.Tarball ⟨"file:foo-1.0.0.tgz", none⟩)
      = ([], some (.panic ("Current implementation requires integrity, but "
          ++ DependencyPath.display ⟨none, ⟨⟨none, "foo"⟩, "1.0.0"⟩⟩ ++ " doesn\x27t have it"))) :=
  ⟨rfl,
   c7_missing_integrity_fatal "https://registry.npmjs.com/"
     ⟨none, ⟨⟨none, "foo"⟩, "1.0.0"⟩⟩ ⟨"file:foo-1.0.0.tgz", none⟩ rfl⟩

/-! ## Symlink creation and package import: `crates/cli/src/package_import.rs`

The filesystem is an association list from paths to nodes (regular file with
content, directory, or symlink).  The OS-level `symlink_dir` of
`cli/src/fs.rs` fails with `AlreadyExists` whenever the link path is already
occupied, whatever occupies it.  Two call sites are embedded: the per-link
step of `create_virtdir_by_snapshot` (which swallows `AlreadyExists` and
panics on other errors) and the symlink step of `ImportMethodImpl::import`
(which skips when the path is already a symlink and otherwise propagates the
error). -/

/-- A filesystem node: regular file with content, directory, or symlink. -/
inductive FsNode
  | file (content : List Nat)
  | dir
  | symlink (target : String)
deriving DecidableEq

/-- Filesystem for the import/symlink layer. -/
abbrev DirFs := List (String × FsNode)

/-- Embeds Rust `Path::exists`. -/
def pathExists (fs : DirFs) (p : String) : Bool :=
  fs.any (fun e => e.1 = p)

/-- Embeds Rust `Path::is_symlink`. -/
def isSymlinkAt (fs : DirFs) (p : String) : Bool :=
  match fs.find? (fun e => e.1 = p) with
  | some (_, .symlink _) => true
  | _ => false

/-- Embeds Rust `fs::create_dir_all` (one level suffices for the model). -/
def createDirAll (fs : DirFs) (p : String) : DirFs :=
  if pathExists fs p then fs else (p, .dir) :: fs

/-- I/O error kinds distinguished by the call sites. -/
inductive IoErrorKind
  | alreadyExists
  | other
deriving DecidableEq

/-- Embeds `symlink_dir` of `cli/src/fs.rs` (the OS symlink call): fails with
`AlreadyExists` whenever the link path is occupied — by anything — and
otherwise creates the symlink. -/
def symlink_dir (fs : DirFs) (target linkPath : String) : DirFs × Option IoErrorKind :=
  if pathExists fs linkPath then (fs, some .alreadyExists)
  else ((linkPath, .symlink target) :: fs, none)

/-- Outcome of the snapshot-path symlink step.  The source only ever produces
`.ok` or `.panicked`; `symlinkCollision` exists so the specification claim
naming it can be stated — no embedded code path constructs it. -/
inductive SymlinkOutcome
  | ok
  | panicked (msg : String)
  | symlinkCollision
deriving DecidableEq

/-- Embeds the per-dependency symlink step of `create_virtdir_by_snapshot`
(`cli/src/package_import.rs`): create the parent directories, attempt the
symlink, treat `AlreadyExists` as success and panic on any other error. -/
def snapshotSymlinkStep (fs : DirFs) (symlinkTarget symlinkPath : String) :
    DirFs × SymlinkOutcome :=
  let fs1 := createDirAll fs (parentDir symlinkPath)
  match symlink_dir fs1 symlinkTarget symlinkPath with
  | (fs2, none) => (fs2, .ok)
  | (fs2, some .alreadyExists) => (fs2, .ok)
  | (fs2, some .other) => (fs2, .panicked "Failed to create symlink")

/-- Embeds the symlink step of `ImportMethodImpl::import` for the `Auto`
method (`cli/src/package_import.rs`): skip when the link path is already a
symlink; otherwise create parent directories and attempt the symlink,
propagating any error. -/
def importSymlinkStep (fs : DirFs) (savePath symlinkTo : String) : DirFs × Option IoErrorKind :=
  if isSymlinkAt fs symlinkTo then (fs, none)
  else
    let fs1 := createDirAll fs (parentDir symlinkTo)
    symlink_dir fs1 savePath symlinkTo

theorem pathExists_of_isSymlinkAt (fs : DirFs) (p : String) (h : isSymlinkAt fs p = true) :
    pathExists fs p = true := by
  unfold isSymlinkAt at h
  unfold pathExists
  cases hf : fs.find? (fun e => e.1 = p) with
  | none => rw [hf] at h; simp at h
  | some e =>
    have hm : e ∈ fs := List.mem_of_find?_eq_some hf
    have hp : e.1 = p := by simpa using List.find?_some hf
    exact List.any_eq_true.mpr ⟨e, hm, by simp [hp]⟩

theorem pathExists_createDirAll_of (fs : DirFs) (q p : String)
    (h : pathExists fs p = true) : pathExists (createDirAll fs q) p = true := by
  unfold createDirAll
  split
  · exact h
  · simp only [pathExists] at h ⊢
    simp [List.any_cons, h]

/-- C8 counterexample: when the link path is occupied by a plain directory —
not a symlink — the snapshot-path symlink step still reports success (the
`AlreadyExists` failure of the OS call is swallowed); it does not fail with a
`SymlinkCollision` error. -/
theorem c8_counterexample :
    pathExists [("proj/node_modules/dep", FsNode.dir)] "proj/node_modules/dep" = true ∧
    isSymlinkAt [("proj/node_modules/dep", FsNode.dir)] "proj/node_modules/dep" = false ∧
    (snapshotSymlinkStep [("proj/node_modules/dep", FsNode.dir)] "target"
        "proj/node_modules/dep").2 ≠ SymlinkOutcome.symlinkCollision ∧
    (snapshotSymlinkStep [("proj/node_modules/dep", FsNode.dir)] "target"
        "proj/node_modules/dep").2 = SymlinkOutcome.ok := by
  refine ⟨by decide, by decide, by decide, by decide⟩

/-- C8 amended: parent directories are created as needed and an existing
symlink makes the operation an idempotent no-op, with `AlreadyExists` treated
as success; but when the link path is occupied by a non-symlink, no
`SymlinkCollision` error is raised — the snapshot path swallows the
`AlreadyExists` failure and reports success, while the Auto-import path
propagates it as a plain I/O error. -/
theorem c8_symlink_semantics (fs : DirFs) (target link : String) :
    (pathExists fs link = true →
      snapshotSymlinkStep fs target link = (createDirAll fs (parentDir link), .ok)) ∧
    (pathExists (createDirAll fs (parentDir link)) link = false →
      snapshotSymlinkStep fs target link
        = ((link, .symlink target) :: createDirAll fs (parentDir link), .ok)) ∧
    (isSymlinkAt fs link = true → importSymlinkStep fs target link = (fs, none)) ∧
    (isSymlinkAt fs link = false → pathExists fs link = true →
      importSymlinkStep fs target link
        = (createDirAll fs (parentDir link), some .alreadyExists)) ∧
    (pathExists (createDirAll fs (parentDir link)) link = false →
      importSymlinkStep fs target link
        = ((link, .symlink target) :: createDirAll fs (parentDir link), none)) := by
  refine ⟨fun h => ?_, fun h => ?_, fun h => ?_, fun hs h => ?_, fun h => ?_⟩
  · have h1 := pathExists_createDirAll_of fs (parentDir link) link h
    simp [snapshotSymlinkStep, symlink_dir, h1]
  · simp [snapshotSymlinkStep, symlink_dir, h]
  · simp [importSymlinkStep, h]
  · have h1 := pathExists_createDirAll_of fs (parentDir link) link h
    simp [importSymlinkStep, hs, symlink_dir, h1]
  · have hfs : pathExists fs link = false := by
      cases hh : pathExists fs link with
      | false => rfl
      | true =>
        have hcontra := pathExists_createDirAll_of fs (parentDir link) link hh
        rw [h] at hcontra
        simp at hcontra
    have hsym : isSymlinkAt fs link = false := by
      cases hh : isSymlinkAt fs link with
      | false => rfl
      | true =>
        have hcontra := pathExists_of_isSymlinkAt fs link hh
        rw [hfs] at hcontra
        simp at hcontra
    simp [importSymlinkStep, hsym, symlink_dir, h]

/-- Witness for `c8_symlink_semantics`: a link path already occupied by a
symlink is an idempotent success for both call sites. -/
theorem c8_symlink_semantics_witness :
    pathExists [("a/b", FsNode.symlink "t")] "a/b" = true ∧
    snapshotSymlinkStep [("a/b", FsNode.symlink "t")] "new-target" "a/b"
      = (createDirAll [("a/b", FsNode.symlink "t")] (parentDir "a/b"), .ok) ∧
    importSymlinkStep [("a/b", FsNode.symlink "t")] "new-target" "a/b"
      = ([("a/b", FsNode.symlink "t")], none) :=
  ⟨by decide,
   (c8_symlink_semantics [("a/b", FsNode.symlink "t")] "new-target" "a/b").1 (by decide),
   (c8_symlink_semantics [("a/b", FsNode.symlink "t")] "new-target" "a/b").2.2.1 (by decide)⟩

/-! ## Registry client cache: `HttpClient::get_package` of `crates/registry/src/http_client.rs`

`elsa::FrozenMap<String, Box<Package>>` is an insert-only map handing out
references that stay valid for the map's lifetime.  The cache state is
embedded as an association list; `get_package` is parameterized by the type of
package metadata and by the HTTP fetch (external `reqwest` stack), and
additionally reports whether an HTTP request was performed. -/

/-- The registry client state: the memoizing cache of `HttpClient`. -/
structure RegState (α : Type) where
  cache : List (String × α)
deriving DecidableEq

/-- Cache lookup, embedding `FrozenMap::get`. -/
def cacheLookup {α : Type} (st : RegState α) (name : String) : Option α :=
  (st.cache.find? (fun e => e.1 = name)).map (fun e => e.2)

/-- Embeds `HttpClient::get_package`: on a cache hit return the cached
metadata with no HTTP request; on a miss perform the HTTP fetch, insert the
result, and return the inserted entry.  The third component records whether an
HTTP request happened. -/
def get_package {α : Type} (fetch : String → α) (st : RegState α) (name : String) :
    RegState α × α × Bool :=
  match st.cache.find? (fun e => e.1 = name) with
  | some e => (st, e.2, false)
  | none => (⟨(name, fetch name) :: st.cache⟩, fetch name, true)

/-- C9: `get_package` is memoized per name over an insert-only cache: a cache
hit performs no HTTP request and returns the cached value unchanged; after any
call the name is cached with the returned value; a repeated call performs no
HTTP request and returns the same value and state; and every entry previously
present survives unchanged, so references into the cache stay valid. -/
theorem c9_get_package_memoized {α : Type} (fetch : String → α) (st : RegState α)
    (name : String) :
    (∀ p, cacheLookup st name = some p → get_package fetch st name = (st, p, false)) ∧
    cacheLookup (get_package fetch st name).1 name = some (get_package fetch st name).2.1 ∧
    get_package fetch (get_package fetch st name).1 name
      = ((get_package fetch st name).1, (get_package fetch st name).2.1, false) ∧
    (∀ other p, cacheLookup st other = some p →
      cacheLookup (get_package fetch st name).1 other = some p) := by
  cases hf : st.cache.find? (fun e => e.1 = name) with
  | some e =>
    refine ⟨fun p hp => ?_, ?_, ?_, fun other p hp => ?_⟩
    · simp [cacheLookup, hf] at hp
      simp [get_package, hf, hp]
    · simp [get_package, cacheLookup, hf]
    · simp [get_package, hf]
    · simp [get_package, hf, hp]
  | none =>
    refine ⟨fun p hp => ?_, ?_, ?_, fun other p hp => ?_⟩
    · simp [cacheLookup, hf] at hp
    · simp [get_package, cacheLookup, hf]
    · simp [get_package, hf]
    · by_cases hno : name = other
      · subst hno
        simp [cacheLookup, hf] at hp
      · simp [cacheLookup, hf] at hp
        simp [get_package, cacheLookup, hf, List.find?_cons, hno, hp]

/-- Witness for `c9_get_package_memoized` over a concrete cache: after a get
of a fresh name, a previously inserted entry is still cached unchanged. -/
theorem c9_get_package_memoized_witness :
    cacheLookup (⟨[("left", 3)]⟩ : RegState Nat) "left" = some 3 ∧
    cacheLookup (get_package (fun _ => 7) (⟨[("left", 3)]⟩ : RegState Nat) "pkg").1 "left"
      = some 3 :=
  ⟨by decide,
   (c9_get_package_memoized (fun _ => 7) (⟨[("left", 3)]⟩ : RegState Nat) "pkg").2.2.2
     "left" 3 (by decide)⟩

/-! ## Package-file import: `auto_import` of `crates/cli/src/package_import.rs` -/

/-- Embeds `auto_import`: if the target already exists, succeed without doing
anything; otherwise create the parent directories and reflink-or-copy the
source blob to the target.  Errors are reported with the offending paths. -/
def auto_import (fs : DirFs) (source_file target_link : String) : DirFs × Option String :=
  if pathExists fs target_link then
    (fs, none)
  else
    let fs1 := createDirAll fs (parentDir target_link)
    match fs1.find? (fun e => e.1 = source_file) with
    | some (_, .file content) => ((target_link, .file content) :: fs1, none)
    | _ => (fs1, some ("CreateLink from " ++ source_file ++ " to " ++ target_link))

/-- Embeds the file part of `ImportMethodImpl::import` for the `Auto` method:
when `save_path` does not exist, run `auto_import` for every
`(cleaned_entry, store_path)` pair of the CAS index; when `save_path` already
exists, skip all per-entry work. -/
def importAutoFiles (fs : DirFs) (cas_files : List (String × String)) (save_path : String) :
    DirFs × Option String :=
  if pathExists fs save_path then
    (fs, none)
  else
    cas_files.foldl
      (fun acc entry =>
        match acc with
        | (fs2, some e) => (fs2, some e)
        | (fs2, none) => auto_import fs2 entry.2 (save_path ++ "/" ++ entry.1))
      (fs, none)

/-- C10: package-file import never overwrites: an entry whose destination
already exists is a successful no-op whatever content the destination holds,
and the Auto import method skips all per-entry work as soon as `save_path`
exists, with no check that the existing directory holds every index entry. -/
theorem c10_no_overwrite (fs : DirFs) :
    (∀ source_file target_link, pathExists fs target_link = true →
      auto_import fs source_file target_link = (fs, none)) ∧
    (∀ cas_files save_path, pathExists fs save_path = true →
      importAutoFiles fs cas_files save_path = (fs, none)) := by
  constructor
  · intro source_file target_link h
    simp [auto_import, h]
  · intro cas_files save_path h
    simp [importAutoFiles, h]

/-- Witness for `c10_no_overwrite`: the destination holds content `[2]` while
the CAS blob is `[1]` — the import leaves the filesystem untouched — and a
two-entry index is skipped entirely because `save_path` exists, although only
one of the two entries is present under it. -/
theorem c10_no_overwrite_witness :
    pathExists [("vdir/pkg", FsNode.dir), ("store/ab", FsNode.file [1]),
        ("vdir/pkg/index.js", FsNode.file [2])] "vdir/pkg/index.js" = true ∧
    auto_import [("vdir/pkg", FsNode.dir), ("store/ab", FsNode.file [1]),
        ("vdir/pkg/index.js", FsNode.file [2])] "store/ab" "vdir/pkg/index.js"
      = ([("vdir/pkg", FsNode.dir), ("store/ab", FsNode.file [1]),
          ("vdir/pkg/index.js", FsNode.file [2])], none) ∧
    importAutoFiles [("vdir/pkg", FsNode.dir), ("store/ab", FsNode.file [1]),
        ("vdir/pkg/index.js", FsNode.file [2])]
        [("index.js", "store/ab"), ("other.js", "store/ab")] "vdir/pkg"
      = ([("vdir/pkg", FsNode.dir), ("store/ab", FsNode.file [1]),
          ("vdir/pkg/index.js", FsNode.file [2])], none) :=
  ⟨by decide,
   (c10_no_overwrite [("vdir/pkg", FsNode.dir), ("store/ab", FsNode.file [1]),
      ("vdir/pkg/index.js", FsNode.file [2])]).1 "store/ab" "vdir/pkg/index.js" (by decide),
   (c10_no_overwrite [("vdir/pkg", FsNode.dir), ("store/ab", FsNode.file [1]),
      ("vdir/pkg/index.js", FsNode.file [2])]).2
     [("index.js", "store/ab"), ("other.js", "store/ab")] "vdir/pkg" (by decide)⟩

end Pacquet
